import Mathlib

/-!
Verification of the CWM repository's schema validator, persistent document
store and process orchestrator against its specification.

The development shallowly embeds the Python sources:
  * `src/cwm/schema_validator.py`  (JSON values, schemas, `validate`)
  * `src/cwm/storage_manager.py`   (`_load_json`, `load_projects`,
                                    `_reindex_projects`, `_heal_groups`)
  * `src/cwm/service_manager.py`   (registry load, reconciliation, watcher
                                    loop, `start_project`, `nuke_all`)

Python exceptions are represented by `PyErr` and fallible code returns
`Except PyErr _`.  Side-effecting code threads an explicit `Sys` state.
-/

namespace CWM

/-- PyType enumerates the Python classes that appear in CWM schemas:
`int`, `float`, `str`, `bool`, `list`, `dict` and `NoneType`. -/
inductive PyType where
  | int
  | float
  | str
  | bool
  | list
  | dict
  | noneT
deriving DecidableEq

/-- Value is the type of JSON-shaped Python values handled by the validator
and the document store.  Floats are carried opaquely (`vfloat r` stands for
some float value identified by `r`); no float arithmetic occurs in the
modelled code, only `isinstance` tests. -/
inductive Value where
  | vnull
  | vbool (b : Bool)
  | vint (n : Int)
  | vfloat (r : Int)
  | vstr (s : String)
  | vlist (xs : List Value)
  | vdict (kvs : List (String × Value))

/-- Schema mirrors the recursive schema descriptions of
`schema_validator.py`: a primitive Python type, a union (a Python tuple of
types), a list schema (a Python list literal whose first element, when
present, is the item schema — `_validate_list` ignores further elements),
or a mapping of field names to sub-schemas. -/
inductive Schema where
  | prim (t : PyType)
  | union (ts : List PyType)
  | slist (items : List Schema)
  | smap (fields : List (String × Schema))

mutual

/-- beqV is structural equality on `Value`, modelling Python `==` on the
JSON values compared by the storage manager (ids, which `validate`
guarantees to be ints at every comparison site; Python's cross-type
numeric equalities such as `True == 1` are irrelevant there). -/
def beqV : Value → Value → Bool
  | .vnull, .vnull => true
  | .vbool a, .vbool b => a == b
  | .vint a, .vint b => a == b
  | .vfloat a, .vfloat b => a == b
  | .vstr a, .vstr b => a == b
  | .vlist xs, .vlist ys => beqVList xs ys
  | .vdict xs, .vdict ys => beqVKVs xs ys
  | _, _ => false

/-- beqVList compares value lists elementwise. -/
def beqVList : List Value → List Value → Bool
  | [], [] => true
  | x :: xs, y :: ys => beqV x y && beqVList xs ys
  | _, _ => false

/-- beqVKVs compares key-value lists elementwise. -/
def beqVKVs : List (String × Value) → List (String × Value) → Bool
  | [], [] => true
  | (k, x) :: xs, (l, y) :: ys => k == l && beqV x y && beqVKVs xs ys
  | _, _ => false

end

/-- isinst models Python `isinstance(value, t)` for the single types used
in CWM schemas.  Note `isinstance(True, int)` is `True` in Python because
`bool` is a subclass of `int`. -/
def isinst : Value → PyType → Bool
  | .vbool _, .bool => true
  | .vbool _, .int => true
  | .vint _, .int => true
  | .vfloat _, .float => true
  | .vstr _, .str => true
  | .vlist _, .list => true
  | .vdict _, .dict => true
  | .vnull, .noneT => true
  | _, _ => false

/-- isinstU models `isinstance(value, expected)` where `expected` is a
tuple of types: true iff the value is an instance of some member. -/
def isinstU (v : Value) (ts : List PyType) : Bool :=
  ts.any (isinst v)

/-- defaultForType embeds `default_for_type` (schema_validator.py lines
18-34) applied to a single type.  `NoneType` is not tested explicitly by
the source and falls through to the final `return None`. -/
def defaultForType : PyType → Value
  | .int => .vint 0
  | .float => .vfloat 0
  | .str => .vstr ""
  | .bool => .vbool false
  | .list => .vlist []
  | .dict => .vdict []
  | .noneT => .vnull

/-- vlookup models `data[key]` / `key in data` lookups on a Python dict
represented as a key-value list (Python dicts have unique keys; on such
lists first-match lookup agrees with dict indexing). -/
def vlookup : List (String × Value) → String → Option Value
  | [], _ => none
  | (k, v) :: rest, key => if k == key then some v else vlookup rest key

mutual

/-- generateDefault embeds `generate_default` (schema_validator.py lines
92-98): dict schemas produce a dict of recursive defaults, list schemas
produce `[]`, and any other schema is passed to `default_for_type` — in
particular a union (tuple) schema yields `None` there. -/
def generateDefault : Schema → Value
  | .smap fs => .vdict (genFields fs)
  | .slist _ => .vlist []
  | .prim t => defaultForType t
  | .union _ => .vnull

/-- genFields builds the recursive defaults of a dict schema's fields. -/
def genFields : List (String × Schema) → List (String × Value)
  | [] => []
  | (k, s) :: rest => (k, generateDefault s) :: genFields rest

end

mutual

/-- validate embeds `validate` (schema_validator.py lines 101-110)
together with `_validate_value`, `_validate_list` and `_validate_dict`:
dict schemas keep exactly the declared keys (validating present values,
synthesizing defaults for missing ones); list schemas coerce non-lists to
`[]`, accept any list unchanged when the schema is the empty list `[]`,
and otherwise validate every element against the first item schema;
unions keep a value matching any member and otherwise substitute
`default_for_type(tuple) = None`; primitives keep a matching value and
otherwise substitute the type's canonical default. -/
def validate : Schema → Value → Value
  | .prim t, v => if isinst v t then v else defaultForType t
  | .union ts, v => if isinstU v ts then v else .vnull
  | .slist items, v =>
    match v with
    | .vlist xs =>
      match items with
      | [] => .vlist xs
      | i :: _ => .vlist (xs.map (validate i))
    | _ => .vlist []
  | .smap fs, v =>
    .vdict (validateFields fs (match v with | .vdict kvs => kvs | _ => []))

/-- validateFields embeds the loop of `_validate_dict` (lines 80-85). -/
def validateFields : List (String × Schema) → List (String × Value) →
    List (String × Value)
  | [], _ => []
  | (k, s) :: rest, kvs =>
    (k, match vlookup kvs k with
        | none => generateDefault s
        | some v => validate s v) :: validateFields rest kvs

end

/-- serviceEntrySchema is the template of `validate_service_entry`
(schema_validator.py lines 113-124). -/
def serviceEntrySchema : Schema :=
  .smap [("project_id", .prim .int),
         ("alias", .prim .str),
         ("pid", .union [.int, .noneT]),
         ("viewers", .slist [.prim .int]),
         ("status", .prim .str),
         ("start_time", .union [.int, .float]),
         ("log_path", .prim .str),
         ("cmd", .prim .str)]

mutual

/-- matchesSchema formalizes the claim's notion of "the result's type
structure matches s": primitives and union members by `isinstance`; a
list value whose elements all match the item schema (any list for the
generic `[]` schema); a dict carrying exactly the declared keys, in
order, each value matching its sub-schema. -/
def matchesSchema : Value → Schema → Bool
  | v, .prim t => isinst v t
  | v, .union ts => isinstU v ts
  | v, .slist items =>
    match v with
    | .vlist xs =>
      match items with
      | [] => true
      | i :: _ => matchesAll xs i
    | _ => false
  | v, .smap fs =>
    match v with
    | .vdict kvs => matchesFields kvs fs
    | _ => false

/-- matchesAll checks every list element against the item schema. -/
def matchesAll : List Value → Schema → Bool
  | [], _ => true
  | x :: rest, s => matchesSchema x s && matchesAll rest s

/-- matchesFields checks a dict's keys and values against the declared
fields, in order. -/
def matchesFields : List (String × Value) → List (String × Schema) → Bool
  | [], [] => true
  | (k, v) :: kvs, (k', s) :: fs =>
    k == k' && matchesSchema v s && matchesFields kvs fs
  | _, _ => false

end

mutual

/-- matchesLoose is `matchesSchema` with union matching loosened to also
accept `None`; it is the structure guarantee the source actually
provides, since a union mismatch is healed to `None` even when `NoneType`
is not a member of the union. -/
def matchesLoose : Value → Schema → Bool
  | v, .prim t => isinst v t
  | v, .union ts => isinstU v ts || (match v with | .vnull => true | _ => false)
  | v, .slist items =>
    match v with
    | .vlist xs =>
      match items with
      | [] => true
      | i :: _ => matchesAllL xs i
    | _ => false
  | v, .smap fs =>
    match v with
    | .vdict kvs => matchesFieldsL kvs fs
    | _ => false

/-- matchesAllL checks every list element loosely. -/
def matchesAllL : List Value → Schema → Bool
  | [], _ => true
  | x :: rest, s => matchesLoose x s && matchesAllL rest s

/-- matchesFieldsL checks a dict's keys and values loosely, in order. -/
def matchesFieldsL : List (String × Value) → List (String × Schema) → Bool
  | [], [] => true
  | (k, v) :: kvs, (k', s) :: fs =>
    k == k' && matchesLoose v s && matchesFieldsL kvs fs
  | _, _ => false

end

/-- keysOf lists a schema dict's declared field names. -/
def keysOf (fs : List (String × Schema)) : List String := fs.map Prod.fst

/-- nodupKeys checks that a key list has no duplicates.  Python dict
literals cannot carry duplicate keys, so every schema value expressible
in the source satisfies it. -/
def nodupKeys : List String → Bool
  | [] => true
  | k :: rest => !(rest.contains k) && nodupKeys rest

mutual

/-- wfS states that a `Schema` term denotes an actual Python schema
value: every dict level has distinct field names.  Python dict literals
guarantee this, so the predicate only excludes artifacts of the list
encoding used here. -/
def wfS : Schema → Bool
  | .prim _ => true
  | .union _ => true
  | .slist items => match items with | [] => true | i :: _ => wfS i
  | .smap fs => nodupKeys (keysOf fs) && wfFields fs

/-- wfFields checks `wfS` on every declared sub-schema. -/
def wfFields : List (String × Schema) → Bool
  | [] => true
  | (_, s) :: rest => wfS s && wfFields rest

end

/-- fieldEntry is the value `_validate_dict` stores for a declared field:
the recursive default when the key is missing, otherwise the validated
present value. -/
def fieldEntry (s : Schema) : Option Value → Value
  | none => generateDefault s
  | some v => validate s v

/-- schemaInd is a member-aware induction principle for the nested
inductive `Schema`. -/
def schemaInd (P : Schema → Prop) (hp : ∀ t, P (.prim t))
    (hu : ∀ ts, P (.union ts))
    (hl : ∀ items, (∀ i ∈ items, P i) → P (.slist items))
    (hm : ∀ fs, (∀ kv ∈ fs, P kv.2) → P (.smap fs)) : ∀ s, P s
  | .prim t => hp t
  | .union ts => hu ts
  | .slist items => hl items (fun i hi => schemaInd P hp hu hl hm i)
  | .smap fs => hm fs (fun kv hkv => schemaInd P hp hu hl hm kv.2)
termination_by s => sizeOf s
decreasing_by
  · have h := List.sizeOf_lt_of_mem hi
    simp only [Schema.slist.sizeOf_spec]
    omega
  · have h := List.sizeOf_lt_of_mem hkv
    have h2 : sizeOf kv.2 < sizeOf kv := by
      obtain ⟨a, b⟩ := kv
      simp only [Prod.mk.sizeOf_spec]
      omega
    simp only [Schema.smap.sizeOf_spec]
    omega

-- ### STORAGE DEFINITIONS

/-- Proj is a project row in the shape `validate` guarantees against the
projects.json schema (every declared field present with its declared
type); `_reindex_projects` and `_heal_groups` run only on such validated
data inside `_load_json`.  `startupCmd` is str, list or None and is
untouched by the healers.  The source field `alias` is rendered
`aliasStr` because `alias` is a Lean keyword. -/
structure Proj where
  id : Int
  aliasStr : String
  path : String
  hits : Int
  startupCmd : Value
  group : Option Int

/-- GItem is one `project_list` entry of a Group: `{"id": ..., "verify": ...}`. -/
structure GItem where
  id : Int
  verify : String

/-- Grp is a group row in validated shape. -/
structure Grp where
  id : Int
  aliasStr : String
  projectList : List GItem

/-- ProjectsDoc is the validated shape of projects.json. -/
structure ProjectsDoc where
  lastId : Int
  lastGroupId : Int
  projects : List Proj
  groups : List Grp

/-- lookupLast looks a key up in an association list built by successive
Python dict assignments: a later assignment overwrites an earlier one,
so the last matching pair wins. -/
def lookupLast {α β : Type} [BEq α] : List (α × β) → α → Option β
  | [], _ => none
  | (k, v) :: rest, key =>
    match lookupLast rest key with
    | some w => some w
    | none => if k == key then some v else none

/-- renumberProjs is PHASE 1 of `_reindex_projects` (storage_manager.py
lines 161-171): project ids become the 1-based enumeration index. -/
def renumberProjs : Int → List Proj → List Proj
  | _, [] => []
  | i, p :: rest => { p with id := i } :: renumberProjs (i + 1) rest

/-- renumberGrps is PHASE 2 of `_reindex_projects` (lines 179-187). -/
def renumberGrps : Int → List Grp → List Grp
  | _, [] => []
  | i, g :: rest => { g with id := i } :: renumberGrps (i + 1) rest

/-- idPairs builds the old-id-to-new-id dict (`proj_map`/`group_map`):
each old id is assigned its 1-based position; on validated data the
`old_id is not None` guard of the source always passes because ids are
ints. -/
def idPairs : Int → List Int → List (Int × Int)
  | _, [] => []
  | i, o :: rest => (o, i) :: idPairs (i + 1) rest

/-- fixGroupList is PHASE 3.A of `_reindex_projects` (lines 199-214): an
entry whose old id is a key of `proj_map` is kept with its id rewritten
to the mapped new id; any other entry is dropped.  The deletion of the
legacy `project_ids` key (lines 196-197) is invisible here because
`validate` has already dropped keys not declared in the schema. -/
def fixGroupList (pm : List (Int × Int)) : List GItem → List GItem
  | [] => []
  | it :: rest =>
    match lookupLast pm it.id with
    | some nid => { it with id := nid } :: fixGroupList pm rest
    | none => fixGroupList pm rest

/-- reindexProjects embeds `_reindex_projects` (storage_manager.py lines
145-227): renumber projects and groups to 1..N in order, record the
old-to-new id maps, rewrite or drop each group entry by old project id,
and remap or null each project's `group` field by old group id. -/
def reindexProjects (d : ProjectsDoc) : ProjectsDoc :=
  let pm := idPairs 1 (d.projects.map (fun p => p.id))
  let gm := idPairs 1 (d.groups.map (fun g => g.id))
  let projects1 := renumberProjs 1 d.projects
  let groups1 := renumberGrps 1 d.groups
  let groups2 := groups1.map
    (fun g => { g with projectList := fixGroupList pm g.projectList })
  let projects2 := projects1.map
    (fun p => { p with group := p.group.bind (lookupLast gm) })
  { lastId := Int.ofNat d.projects.length,
    lastGroupId := Int.ofNat d.groups.length,
    projects := projects2,
    groups := groups2 }

/-- aliasPairs builds `alias_to_id_map` of `_heal_groups` (line 63), a
dict comprehension over projects in order (later duplicates overwrite);
the `"alias" in p` guard always passes on validated data. -/
def aliasPairs : List Proj → List (String × Int)
  | [] => []
  | p :: rest => (p.aliasStr, p.id) :: aliasPairs rest

/-- healItems rebuilds one group's `project_list` (cases 1-3 of
`_heal_groups`, lines 75-97): an entry whose verify alias maps to its own
id is kept unchanged (case 1); one whose alias maps to a different id is
rewritten to `{"id": correct_id, "verify": alias}` (case 2, flagged); one
whose alias is unknown is dropped (case 3, flagged). -/
def healItems (am : List (String × Int)) : List GItem → List GItem × Bool
  | [] => ([], false)
  | it :: rest =>
    let r := healItems am rest
    match lookupLast am it.verify with
    | some cid =>
      if cid == it.id then (it :: r.1, r.2)
      else (⟨cid, it.verify⟩ :: r.1, true)
    | none => (r.1, true)

/-- healGroups embeds `_heal_groups` (storage_manager.py lines 52-103).
Value-wise every group ends up carrying its rebuilt list: when a group's
rebuild changed something the list is reassigned, and when it did not the
rebuilt list is element-for-element the old one (case 1 appends the item
itself), so the sticky `data_changed` flag cannot alter the resulting
document.  The flag returned is true iff some entry was rewritten or
dropped. -/
def healGroups (d : ProjectsDoc) : ProjectsDoc × Bool :=
  let am := aliasPairs d.projects
  let results := d.groups.map
    (fun g =>
      let r := healItems am g.projectList
      ({ g with projectList := r.1 }, r.2))
  ({ d with groups := results.map Prod.fst }, results.any Prod.snd)

/-- healProjectsPipeline is the healing `_load_json` applies to validated
projects.json data: `_enforce_sequential_ids` (which routes projects.json
to `_reindex_projects`, lines 228-242) followed by `_heal_groups` (lines
269-277).  In the current source this pipeline is unreachable during an
actual load because the validate call at line 266 raises TypeError first
(see `loadJson` below); it is analysed here as the healing transformation
those functions define. -/
def healProjectsPipeline (d : ProjectsDoc) : ProjectsDoc :=
  (healGroups (reindexProjects d)).1

/-- healedEntry is the per-entry effect of the healing pipeline on a
group entry: kept (with its id rewritten to the alias's post-reindex id)
exactly when its old id matches some pre-reindex project id and its
verify alias names an existing project. -/
def healedEntry (pm : List (Int × Int)) (am : List (String × Int))
    (it : GItem) : Option GItem :=
  match lookupLast pm it.id with
  | none => none
  | some _ =>
    match lookupLast am it.verify with
    | none => none
    | some cid => some ⟨cid, it.verify⟩

/-- projsDocEx is the C7 counterexample document: the project aliased
"api" currently has id 2, and a group references it through the stale
entry `{"id": 7, "verify": "api"}` where 7 matches no project id. -/
def projsDocEx : ProjectsDoc :=
  { lastId := 2, lastGroupId := 1,
    projects := [⟨5, "x", "/x", 0, .vnull, none⟩,
                 ⟨2, "api", "/api", 0, .vnull, none⟩],
    groups := [⟨1, "g", [⟨7, "api"⟩]⟩] }

-- ### STORAGE VALUE-LEVEL DEFINITIONS

/-- PyErr enumerates the Python exceptions the modelled code can raise. -/
inductive PyErr where
  | typeError
  | recursionError
  | accessDenied
  | attributeError
deriving DecidableEq

/-- PFile is the on-disk state of a JSON document file. -/
inductive PFile where
  | absent
  | parsed (v : Value)
  | unparsable

/-- Bak is the state of the co-located `<name>.bak` backup file. -/
inductive Bak where
  | parsed (v : Value)
  | unparsable
  | absent

/-- restoreFromBackup embeds `_restore_from_backup` (storage_manager.py
lines 374-410) as called from `_load_json` on a JSON file: a parsable
backup is restored and its value returned; a missing or unparsable
backup leads to the default being written back and returned.  The
write-back side effects are elided: they do not affect returned
values. -/
def restoreFromBackup (bak : Bak) (default : Value) : Value :=
  match bak with
  | .parsed b => b
  | _ => default

/-- validateStep2 models step 2 of `_load_json` (storage_manager.py lines
261-288).  With a registered schema the source executes
`validate(raw, schema, partial=is_partial)` (line 266); `validate` is
defined with exactly the parameters `(data, schema)` and no keyword
arguments (schema_validator.py line 101), so this call raises
`TypeError: validate() got an unexpected keyword argument` before the
validator body runs, and the healing, save-check and return that follow
are never reached.  Without a registered schema the raw value is
returned unchanged (`SCHEMAS.get` yields None, which is falsy). -/
def validateStep2 (raw : Value) (schemaOpt : Option Schema) : Except PyErr Value :=
  match schemaOpt with
  | some _ => .error .typeError
  | none => .ok raw

/-- loadJson embeds `_load_json` (storage_manager.py lines 244-288): a
missing file returns `validate(default, SCHEMAS.get(name, {}))` — the
fallback schema for an unregistered name is the empty dict `{}` — and an
existing file is parsed (falling back to backup restore when unparsable)
and handed to step 2.  Every registered schema is a truthy value, so the
`if schema:` test is modelled by the option being `some`. -/
def loadJson (f : PFile) (bak : Bak) (default : Value)
    (schemaOpt : Option Schema) : Except PyErr Value :=
  match f with
  | .absent => .ok (validate (schemaOpt.getD (.smap [])) default)
  | .parsed v => validateStep2 v schemaOpt
  | .unparsable => validateStep2 (restoreFromBackup bak default) schemaOpt

/-- vget models `d.get(key, default)`; `_load_json` results fed to the
callers below are schema-validated dicts, so the non-dict branch
(`AttributeError` in Python) is unreachable and totalized to the
default. -/
def vget (v : Value) (k : String) (dflt : Value) : Value :=
  match v with
  | .vdict kvs => (vlookup kvs k).getD dflt
  | _ => dflt

/-- vsetKVs models Python dict assignment `d[key] = value` on the
underlying pairs: replace the binding when the key exists, else append. -/
def vsetKVs : List (String × Value) → String → Value → List (String × Value)
  | [], k, w => [(k, w)]
  | (k0, v0) :: rest, k, w =>
    if k0 == k then (k0, w) :: rest else (k0, v0) :: vsetKVs rest k w

/-- vset models `d[key] = value` on a dict value; the non-dict branch is
unreachable on validated data and leaves the value unchanged. -/
def vset (v : Value) (k : String) (w : Value) : Value :=
  match v with
  | .vdict kvs => .vdict (vsetKVs kvs k w)
  | _ => v

/-- hasBadIds embeds the scan of `load_projects` PHASE 2 (lines 297-304):
flag when some row's id equals 0 or repeats an earlier row's id (the
`existing_ids` set).  The `max_id` bookkeeping of the source is dead
code (never read after the loop) and omitted. -/
def hasBadIds : List Value → List Value → Bool
  | _, [] => false
  | seen, p :: rest =>
    let pid := vget p "id" .vnull
    if beqV pid (.vint 0) || seen.any (fun q => beqV q pid) then true
    else hasBadIds (pid :: seen) rest

/-- renumberRows embeds the renumbering loop of `load_projects` (lines
309-315): row ids become 1, 2, 3, ... in order. -/
def renumberRows : Int → List Value → List Value
  | _, [] => []
  | i, p :: rest => vset p "id" (.vint i) :: renumberRows (i + 1) rest

/-- loadProjectsPhase2 embeds the logic repair of `load_projects` (lines
294-323).  The `save_projects` write-back (line 320) is elided: it does
not change the returned value.  On validated data "projects" is always a
list; the non-list branch (a Python `for` over a non-iterable would
raise) is unreachable and totalized to the identity. -/
def loadProjectsPhase2 (data : Value) : Value :=
  match vget data "projects" (.vlist []) with
  | .vlist ps =>
    if hasBadIds [] ps then
      vset (vset data "projects" (.vlist (renumberRows 1 ps)))
        "last_id" (.vint (Int.ofNat ps.length))
    else data
  | _ => data

/-- projectsSchemaV is the "projects.json" entry of SCHEMAS
(schema_validator.py lines 136-162). -/
def projectsSchemaV : Schema :=
  .smap [("last_id", .prim .int),
         ("last_group_id", .prim .int),
         ("projects", .slist [.smap
            [("id", .prim .int),
             ("alias", .prim .str),
             ("path", .prim .str),
             ("hits", .prim .int),
             ("startup_cmd", .union [.str, .list, .noneT]),
             ("group", .union [.int, .noneT])]]),
         ("groups", .slist [.smap
            [("id", .prim .int),
             ("alias", .prim .str),
             ("project_list", .slist [.smap
                [("id", .prim .int),
                 ("verify", .prim .str)]])]])]

/-- defaultProjectsV is the default document of `load_projects`
(storage_manager.py line 291). -/
def defaultProjectsV : Value :=
  .vdict [("last_id", .vint 0), ("projects", .vlist [])]

/-- loadProjects embeds `load_projects` (storage_manager.py lines
290-323): `_load_json` on projects.json — whose schema is registered —
followed by the PHASE 2 logic repair; an exception raised inside
`_load_json` propagates to the caller. -/
def loadProjects (f : PFile) (bak : Bak) : Except PyErr Value :=
  (loadJson f bak defaultProjectsV (some projectsSchemaV)).map loadProjectsPhase2

/-- projectsFileEx is a well-formed projects.json document, exactly in
the registered schema's shape. -/
def projectsFileEx : Value :=
  .vdict [("last_id", .vint 1), ("last_group_id", .vint 0),
          ("projects", .vlist [.vdict
            [("id", .vint 1), ("alias", .vstr "api"),
             ("path", .vstr "/api"), ("hits", .vint 0),
             ("startup_cmd", .vstr "sleep 5"), ("group", .vnull)]]),
          ("groups", .vlist [])]

/-- projectsDupIdFile is a projects.json document in which two rows both
carry id 5 (spec scenario (b) up to the id value), the healing target of
C6. -/
def projectsDupIdFile : Value :=
  .vdict [("last_id", .vint 5), ("last_group_id", .vint 0),
          ("projects", .vlist
            [.vdict [("id", .vint 5), ("alias", .vstr "a"),
                     ("path", .vstr "/a"), ("hits", .vint 0),
                     ("startup_cmd", .vnull), ("group", .vnull)],
             .vdict [("id", .vint 5), ("alias", .vstr "b"),
                     ("path", .vstr "/b"), ("hits", .vint 0),
                     ("startup_cmd", .vnull), ("group", .vnull)]]),
          ("groups", .vlist [])]


-- ### ORCHESTRATOR DEFINITIONS

/-- PStat is the OS process table's answer for one pid as seen through
psutil: a live process, a zombie, no such process, or access denied. -/
inductive PStat where
  | alive
  | zombie
  | noSuch
  | denied
deriving DecidableEq

/-- Entry is one ServiceEntry of the registry, in the shape the
orchestrator itself writes and the spec declares (services.json is read
back without schema validation; the claims below quantify over entries
of this shape).  `startTime` carries the `time.time()` number opaquely;
`aliasStr` renders the source field `alias` (a Lean keyword). -/
structure Entry where
  projectId : Int
  aliasStr : String
  pid : Option Int
  viewers : List Int
  status : String
  startTime : Int
  logPath : String
  cmd : String
deriving DecidableEq

/-- Registry is the parsed services.json object: stringified project id
to entry, in insertion order (Python dicts preserve it).  Keys are
unique in any real JSON object. -/
abbrev Registry := List (String × Entry)

/-- SFile is the content of services.json as `_load_state` classifies
it: effectively blank (`not content.strip()`), a parsed JSON object,
parsed JSON whose root is not an object, or unparsable JSON. -/
inductive SFile where
  | blank
  | dictF (r : Registry)
  | nonDict
  | badJson

/-- Evt records an externally visible OS action the orchestrator
performs: a kill signal sent to a pid, a spawned project process, or a
spawned watcher daemon. -/
inductive Evt where
  | kill (pid : Int)
  | spawn (cmd : String)
  | spawnWatcher
deriving DecidableEq

/-- Sys is the world state threaded through the orchestrator: the
registry file, the projects.json file and its backup, the watcher lock
file, the OS process table and child-process map, the outcome the OS
would give the log-file open and the process spawn inside
`start_project`, an oracle for the filesystem check of
`is_safe_startup_cmd`, the current time, and the log of kill/spawn
actions performed so far. -/
structure Sys where
  stateFile : SFile
  projFile : PFile
  projBak : Bak
  watcherLock : Option Int
  procTable : Int → PStat
  children : Int → List Int
  openLogOk : Except String Unit
  spawnResult : Except String Int
  pathOutside : String → Bool
  nowTime : Int
  events : List Evt

/-- writeState embeds `_save_state` (service_manager.py lines 68-72):
serialize and overwrite services.json; failures are swallowed by the
source's bare except, and serialization of well-typed entries cannot
fail, so the model always succeeds. -/
def writeState (s : Sys) (r : Registry) : Sys :=
  { s with stateFile := .dictF r }

/-- pidTruthy models Python truthiness of a pid field: None and 0 are
falsy, everything else truthy. -/
def pidTruthy : Option Int → Bool
  | none => false
  | some p => !(p == 0)

/-- reconcileEntry is the per-entry body of `get_services_status`
(service_manager.py lines 185-207): a running entry with a truthy pid is
kept only when the process is alive and not a zombie (NoSuchProcess and
AccessDenied both demote it to stopped with pid None); a running entry
with a falsy pid has only its status set to "stopped"; a non-running
entry with a non-None pid has the pid cleared. -/
def reconcileEntry (t : Int → PStat) (e : Entry) : Entry :=
  if e.status = "running" then
    if pidTruthy e.pid then
      match e.pid with
      | some p =>
        if t p = .alive then e else { e with status := "stopped", pid := none }
      | none => e
    else { e with status := "stopped" }
  else if e.pid ≠ none then { e with pid := none } else e

/-- reconcileReg applies `reconcileEntry` to every entry, preserving
keys and order exactly as the in-place mutation of the source does. -/
def reconcileReg (t : Int → PStat) (r : Registry) : Registry :=
  r.map (fun kv => (kv.1, reconcileEntry t kv.2))

/-- setEntry models `state[str_id] = entry` on the registry object:
replace the binding in place when the key exists, else append.  The
callers below only replace existing keys or add genuinely new ones,
matching Python dict assignment. -/
def setEntry : Registry → String → Entry → Registry
  | [], k, e => [(k, e)]
  | (k0, e0) :: rest, k, e =>
    if k0 == k then (k0, e) :: rest else (k0, e0) :: setEntry rest k e

/-- killViewers embeds the viewer loop of `stop_project` (lines
328-332): a kill is attempted for every registered viewer pid that
exists (zombies and access-denied pids exist for `psutil.pid_exists`);
every error is swallowed. -/
def killViewers (s : Sys) (vs : List Int) : Sys :=
  vs.foldl
    (fun acc v =>
      if acc.procTable v ≠ .noSuch then
        { acc with events := acc.events ++ [.kill v] }
      else acc)
    s

/-- killMain embeds the main-process kill of `stop_project` (lines
334-343): a falsy pid skips the block; `psutil.Process` on a missing pid
raises NoSuchProcess, which the source swallows; each child kill is
individually guarded; `parent.kill()` has no guard besides the
NoSuchProcess handler, so an access-denied kill propagates. -/
def killMain (s : Sys) (pid : Option Int) : Sys × Except PyErr Unit :=
  if pidTruthy pid then
    match pid with
    | none => (s, .ok ())
    | some p =>
      if s.procTable p = .noSuch then (s, .ok ())
      else
        let s1 := (s.children p).foldl
          (fun acc c => { acc with events := acc.events ++ [.kill c] }) s
        if s.procTable p = .denied then (s1, .error .accessDenied)
        else ({ s1 with events := s1.events ++ [.kill p] }, .ok ())
  else (s, .ok ())

/-- killWatcher is modelled from the spec: `nuke_all` "kills the Watcher
Daemon process via its lock file" (spec section 4.3).  Its definition is
missing from the provided sources (only the call at service_manager.py
line 361 remains): the model kills the pid recorded in the lock file and
removes the lock, reporting a message; with no lock nothing happens. -/
def killWatcher (s : Sys) : Sys × String :=
  match s.watcherLock with
  | none => (s, "No watcher was running.")
  | some p =>
    ({ s with watcherLock := none, events := s.events ++ [.kill p] },
     "Watcher killed.")

mutual

/-- loadState embeds `_load_state` (service_manager.py lines 41-66),
with the finite interpreter stack modelled by fuel: every nested
orchestrator call consumes one unit, and exhausted fuel stands for the
RecursionError Python raises at the recursion limit.  Blank content
returns {}; a parsed object is returned; a non-object root (ValueError)
and unparsable content (JSONDecodeError) are caught by the broad except
clause, which runs `nuke_all` and only then resets the file to {} and
returns {} — an exception escaping `nuke_all` therefore propagates
before any reset happens. -/
def loadState : Nat → Sys → Sys × Except PyErr Registry
  | 0, s => (s, .error .recursionError)
  | n + 1, s =>
    match s.stateFile with
    | .blank => (s, .ok [])
    | .dictF r => (s, .ok r)
    | .nonDict =>
      match nukeAll n s with
      | (s1, .error e) => (s1, .error e)
      | (s1, .ok _) => (writeState s1 [], .ok [])
    | .badJson =>
      match nukeAll n s with
      | (s1, .error e) => (s1, .error e)
      | (s1, .ok _) => (writeState s1 [], .ok [])

/-- getServicesStatus embeds `get_services_status` (lines 177-212):
load the registry, reconcile every entry against the process table, and
persist once if anything changed. -/
def getServicesStatus : Nat → Sys → Sys × Except PyErr Registry
  | 0, s => (s, .error .recursionError)
  | n + 1, s =>
    match loadState n s with
    | (s1, .error e) => (s1, .error e)
    | (s1, .ok st) =>
      let st2 := reconcileReg s1.procTable st
      let s2 := if st2 = st then s1 else writeState s1 st2
      (s2, .ok st2)

/-- stopProject embeds `stop_project` (lines 314-351), keyed by the
stringified project id the source computes on entry: reconcile, fail
with "Not found." for an unknown id, kill the viewers, kill the main
process and its children, then persist the entry as stopped with pid
None and no viewers. -/
def stopProject : Nat → Sys → String → Sys × Except PyErr (Bool × String)
  | 0, s, _ => (s, .error .recursionError)
  | n + 1, s, strId =>
    match getServicesStatus n s with
    | (s1, .error e) => (s1, .error e)
    | (s1, .ok st) =>
      match st.lookup strId with
      | none => (s1, .ok (false, "Not found."))
      | some info =>
        let s2 := killViewers s1 info.viewers
        match killMain s2 info.pid with
        | (s3, .error e) => (s3, .error e)
        | (s3, .ok _) =>
          let st2 := setEntry st strId
            { info with status := "stopped", pid := none, viewers := [] }
          (writeState s3 st2, .ok (true, "Stopped and closed terminals."))

/-- stopKeys folds `stop_project` over the listed registry keys,
counting successful stops; it is the iteration of the spec-modelled
`stop_all`. -/
def stopKeys : Nat → Sys → List String → Sys × Except PyErr Nat
  | 0, s, _ => (s, .error .recursionError)
  | _ + 1, s, [] => (s, .ok 0)
  | n + 1, s, k :: rest =>
    match stopProject n s k with
    | (s1, .error e) => (s1, .error e)
    | (s1, .ok res) =>
      match stopKeys n s1 rest with
      | (s2, .error e) => (s2, .error e)
      | (s2, .ok c) => (s2, .ok (if res.1 then c + 1 else c))

/-- stopAll is modelled from the spec: "stop_all() -> count: calls
stop_project for every entry whose status is running; returns the count
stopped" (spec section 4.3).  Its definition is missing from the
provided sources — only the calls remain (service_manager.py line 358,
run_cmd.py line 163) — so the model enumerates the running entries
through `get_services_status`, the reconciliation point the spec
designates for all read paths, and folds `stop_project` over their
keys. -/
def stopAll : Nat → Sys → Sys × Except PyErr Nat
  | 0, s => (s, .error .recursionError)
  | n + 1, s =>
    match getServicesStatus n s with
    | (s1, .error e) => (s1, .error e)
    | (s1, .ok st) =>
      stopKeys n s1
        ((st.filter (fun kv => kv.2.status == "running")).map Prod.fst)

/-- nukeAll embeds `nuke_all` (service_manager.py lines 353-363):
`stop_all`, then `kill_watcher`, returning the count and the watcher
message.  The registry document itself is not touched here — the reset
to {} is performed by `_load_state` after `nuke_all` returns. -/
def nukeAll : Nat → Sys → Sys × Except PyErr (Nat × String)
  | 0, s => (s, .error .recursionError)
  | n + 1, s =>
    match stopAll n s with
    | (s1, .error e) => (s1, .error e)
    | (s1, .ok c) =>
      let r := killWatcher s1
      (r.1, .ok (c, r.2))

end

-- ### WATCHER AND START DEFINITIONS

/-- watcherProbe is the liveness check of the watcher loop
(service_manager.py lines 103-111): alive iff the pid is truthy and the
process exists and is not a zombie; NoSuchProcess and AccessDenied both
count as dead. -/
def watcherProbe (t : Int → PStat) (pid : Option Int) : Bool :=
  pidTruthy pid &&
    (match pid with
     | some p => t p == .alive
     | none => false)

/-- watcherEntryStep is the per-entry body of the watcher loop (lines
100-119): a dead running entry is demoted to stopped with pid None and
flagged dirty; an alive running entry counts toward `active_count`;
non-running entries are untouched. -/
def watcherEntryStep (t : Int → PStat) (e : Entry) : Entry × Bool × Nat :=
  if e.status = "running" then
    if watcherProbe t e.pid then (e, false, 1)
    else ({ e with status := "stopped", pid := none }, true, 0)
  else (e, false, 0)

/-- watcherScan folds `watcherEntryStep` over the registry, returning
the updated registry, the dirty flag and the alive count. -/
def watcherScan (t : Int → PStat) : Registry → Registry × Bool × Nat
  | [] => ([], false, 0)
  | (k, e) :: rest =>
    let he := watcherEntryStep t e
    let hr := watcherScan t rest
    ((k, he.1) :: hr.1, he.2.1 || hr.2.1, he.2.2 + hr.2.2)

/-- WatcherOutcome describes how the watcher loop ended: a graceful
break, an exception escaping the loop, or the modelled iteration bound
reached without termination. -/
inductive WatcherOutcome where
  | broke
  | raised (e : PyErr)
  | ranOut
deriving DecidableEq

/-- watcherIter embeds the `while True` loop of `run_watcher_loop`
(service_manager.py lines 90-129), with fuel bounding the number of
poll iterations: each iteration sleeps (time is not modelled), reloads
the registry, reconciles every running entry, persists once when dirty,
and breaks when zero entries remain alive. -/
def watcherIter : Nat → Sys → Sys × WatcherOutcome
  | 0, s => (s, .ranOut)
  | n + 1, s =>
    match loadState (n + 1) s with
    | (s1, .error e) => (s1, .raised e)
    | (s1, .ok st) =>
      let scan := watcherScan s1.procTable st
      let s2 := if scan.2.1 then writeState s1 scan.1 else s1
      if scan.2.2 = 0 then (s2, .broke) else watcherIter n s2

/-- runWatcherLoop embeds `run_watcher_loop` (lines 77-136): the watcher
writes its own pid to the lock file, runs the loop, and the `finally`
clause deletes the lock file on every exit path. -/
def runWatcherLoop (fuel : Nat) (selfPid : Int) (s : Sys) :
    Sys × WatcherOutcome :=
  let s0 := { s with watcherLock := some selfPid }
  let r := watcherIter fuel s0
  ({ r.1 with watcherLock := none }, r.2)

/-- ensureWatcherRunning embeds `_ensure_watcher_running` (lines
138-172): nothing happens when the lock file holds the pid of an
existing process; otherwise a detached watcher is spawned (an invalid
lock file content is also caught and treated as absent). -/
def ensureWatcherRunning (s : Sys) : Sys :=
  match s.watcherLock with
  | some p =>
    if s.procTable p ≠ .noSuch then s
    else { s with events := s.events ++ [.spawnWatcher] }
  | none => { s with events := s.events ++ [.spawnWatcher] }

/-- vtruthy models Python truthiness on JSON values, used for the
`if not cmd_str` check of `start_project`. -/
def vtruthy : Value → Bool
  | .vnull => false
  | .vbool b => b
  | .vint n => !(n == 0)
  | .vfloat r => !(r == 0)
  | .vstr t => !(t == "")
  | .vlist xs => !xs.isEmpty
  | .vdict kvs => !kvs.isEmpty

/-- findProj embeds the generator lookup of `start_project`
(service_manager.py line 229): the first project row whose "id" equals
the requested id.  Rows reaching this code are schema-validated
dicts. -/
def findProj (data : Value) (pid : Int) : Option Value :=
  match vget data "projects" (.vlist []) with
  | .vlist ps => ps.find? (fun p => beqV (vget p "id" .vnull) (.vint pid))
  | _ => none

/-- DANGER_KEYWORDS transcribes project_cmd.py lines 40-46 (the braces
of the fork-bomb pattern are escaped for Lean). -/
def DANGER_KEYWORDS : List String :=
  ["rm ", "rm -", "del ", "rd ", "rmdir",
   "format ", "fdisk", "mkfs",
   ":()\x7b :|:& \x7d;:",
   "sudo rm",
   "cwm "]

/-- listPrefix checks a character-list prefix. -/
def listPrefix : List Char → List Char → Bool
  | [], _ => true
  | _ :: _, [] => false
  | a :: as, b :: bs => a == b && listPrefix as bs

/-- listInfix models Python `needle in hay` on strings (an empty needle
is contained in everything). -/
def listInfix : List Char → List Char → Bool
  | needle, [] => needle.isEmpty
  | needle, c :: rest => listPrefix needle (c :: rest) || listInfix needle rest

/-- substrOf is `needle in hay` for strings. -/
def substrOf (needle hay : String) : Bool :=
  listInfix needle.toList hay.toList

/-- pyScriptEscapes embeds the script-boundary check of
`is_safe_startup_cmd` (project_cmd.py lines 74-89): for a
`python <script>` command whose script path contains ".." or is
absolute, the `outside` oracle answers whether
`(project_root / script).resolve()` lands outside the project root (the
source swallows any error from the resolve, which the oracle absorbs);
a true answer blocks the command. -/
def pyScriptEscapes (outside : String → Bool) (cmd : String) : Bool :=
  let parts := (cmd.split Char.isWhitespace).filter (fun w => !(w == ""))
  match parts with
  | p0 :: script :: _ =>
    if p0 == "python" || p0 == "python3" || p0 == "py" then
      if script.startsWith "-" then false
      else if substrOf ".." script || script.startsWith "/" then outside script
      else false
    else false
  | _ => false

/-- checkCmds is the per-command loop of `is_safe_startup_cmd` (lines
64-91): blank commands are skipped, a lowercased danger-keyword hit or
an escaping python script blocks; a non-string element would raise
AttributeError at `.strip()`, which the caller does not guard. -/
def checkCmds (outside : String → Bool) : List Value → Except PyErr Bool
  | [] => .ok true
  | .vstr c :: rest =>
    let c1 := c.trim
    if c1 == "" then checkCmds outside rest
    else if DANGER_KEYWORDS.any (fun b => substrOf b c1.toLower) then .ok false
    else if pyScriptEscapes outside c1 then .ok false
    else checkCmds outside rest
  | _ :: _ => .error .attributeError

/-- isSafeStartupCmd embeds `is_safe_startup_cmd` (project_cmd.py lines
48-91): falsy input is rejected; a list is checked element-wise, any
other value as its single string form (on validated data the non-list
cases are exactly the strings). -/
def isSafeStartupCmd (outside : String → Bool) (cmdInput : Value) :
    Except PyErr Bool :=
  if !vtruthy cmdInput then .ok false
  else
    match cmdInput with
    | .vlist xs => checkCmds outside xs
    | v => checkCmds outside [v]

/-- startSpawn embeds the try block of `start_project`
(service_manager.py lines 244-297): open the per-project log file, spawn
the detached child (the posix `shlex.split` failure mode for list
commands is part of the spawn outcome), record the new running entry —
`validate_service_entry` is the identity on this well-typed entry —
persist it, ensure the watcher daemon, and report the pid; an exception
from the open or the spawn is caught and returned as `(False, str(e))`
with no registry write. -/
def startSpawn (s : Sys) (st : Registry) (strId : String) (pid : Int)
    (proj cmdV : Value) : Sys × Except PyErr (Bool × String) :=
  match s.openLogOk with
  | .error msg => (s, .ok (false, msg))
  | .ok _ =>
    match s.spawnResult with
    | .error msg => (s, .ok (false, msg))
    | .ok childPid =>
      let entry : Entry :=
        { projectId := pid,
          aliasStr := (match vget proj "alias" .vnull with
                       | .vstr a => a
                       | _ => ""),
          pid := some childPid,
          viewers := [],
          status := "running",
          startTime := s.nowTime,
          logPath := "logs/" ++ toString pid ++ ".log",
          cmd := (match cmdV with | .vstr c => c | _ => "") }
      let s1 := { s with events := s.events ++ [.spawn entry.cmd] }
      let s2 := writeState s1 (setEntry st strId entry)
      (ensureWatcherRunning s2, .ok (true, "Started (PID " ++ toString childPid ++ ")"))

/-- startProject embeds `start_project` (service_manager.py lines
221-297): reconcile, return failure for an already-running entry, load
the projects document — an exception raised there propagates, the call
being outside the try block — then the not-found, no-command and
security checks, and finally the guarded open/spawn block. -/
def startProject (fuel : Nat) (s : Sys) (pid : Int) :
    Sys × Except PyErr (Bool × String) :=
  match getServicesStatus fuel s with
  | (s1, .error e) => (s1, .error e)
  | (s1, .ok st) =>
    let strId := toString pid
    if (match st.lookup strId with
        | some e0 => e0.status == "running"
        | none => false) then
      (s1, .ok (false, "Already running."))
    else
      match loadProjects s1.projFile s1.projBak with
      | .error e => (s1, .error e)
      | .ok data =>
        match findProj data pid with
        | none => (s1, .ok (false, "Project ID not found."))
        | some proj =>
          let cmdV := vget proj "startup_cmd" .vnull
          if !vtruthy cmdV then (s1, .ok (false, "No startup command."))
          else
            match isSafeStartupCmd s1.pathOutside cmdV with
            | .error e => (s1, .error e)
            | .ok false =>
              (s1, .ok (false, "SECURITY BLOCK: Command deemed unsafe."))
            | .ok true => startSpawn s1 st strId pid proj cmdV

/-- sysCorrupt is the C1 scenario: services.json holds the parsable JSON
value "not-an-object", whose root is not a mapping; the remaining world
components are concrete and irrelevant to the corrupt-load path. -/
def sysCorrupt : Sys :=
  { stateFile := .nonDict,
    projFile := .absent, projBak := .absent,
    watcherLock := some 77,
    procTable := fun _ => .noSuch,
    children := fun _ => [],
    openLogOk := .ok (), spawnResult := .ok 1,
    pathOutside := fun _ => false,
    nowTime := 0, events := [] }

/-- entryRunningEx is a running registry entry whose pid 42 is alive. -/
def entryRunningEx : Entry :=
  { projectId := 3, aliasStr := "api", pid := some 42, viewers := [],
    status := "running", startTime := 0, logPath := "logs/3.log",
    cmd := "sleep 5" }

/-- sysRunningEx is the C8 witness scenario: project 3 is registered as
running and its process is alive. -/
def sysRunningEx : Sys :=
  { stateFile := .dictF [("3", entryRunningEx)],
    projFile := .parsed projectsFileEx, projBak := .absent,
    watcherLock := none,
    procTable := fun _ => .alive,
    children := fun _ => [],
    openLogOk := .ok (), spawnResult := .ok 99,
    pathOutside := fun _ => false,
    nowTime := 0, events := [] }

/-- entryStoppedEx is a stopped registry entry. -/
def entryStoppedEx : Entry :=
  { projectId := 3, aliasStr := "api", pid := none, viewers := [],
    status := "stopped", startTime := 0, logPath := "logs/3.log",
    cmd := "sleep 5" }

/-- sysStoppedEx is the C9 witness scenario: the only entry is stopped
and no process is alive. -/
def sysStoppedEx : Sys :=
  { stateFile := .dictF [("3", entryStoppedEx)],
    projFile := .absent, projBak := .absent,
    watcherLock := none,
    procTable := fun _ => .noSuch,
    children := fun _ => [],
    openLogOk := .ok (), spawnResult := .ok 99,
    pathOutside := fun _ => false,
    nowTime := 0, events := [] }

/-- sysStartEx is the C10 scenario: empty registry, an existing
well-formed projects.json containing project 1 with a startup command,
and an environment in which opening the log file would raise
"disk full". -/
def sysStartEx : Sys :=
  { stateFile := .dictF [],
    projFile := .parsed projectsFileEx, projBak := .absent,
    watcherLock := none,
    procTable := fun _ => .alive,
    children := fun _ => [],
    openLogOk := .error "disk full",
    spawnResult := .ok 99,
    pathOutside := fun _ => false,
    nowTime := 0, events := [] }

-- ### LEMMAS

theorem dft_isinst (t : PyType) : isinst (defaultForType t) t = true := by
  cases t <;> rfl

theorem validate_vnull_union (ts : List PyType) :
    validate (.union ts) .vnull = .vnull := by
  simp [validate]

theorem matchesLoose_union (v : Value) (ts : List PyType) :
    matchesLoose v (.union ts) =
      (isinstU v ts || (match v with | .vnull => true | _ => false)) := by
  cases v <;> rfl

theorem validateFields_eq (fs : List (String × Schema)) (kvs : List (String × Value)) :
    validateFields fs kvs = fs.map (fun p => (p.1, fieldEntry p.2 (vlookup kvs p.1))) := by
  induction fs with
  | nil => rfl
  | cons p rest ih =>
    obtain ⟨k, s⟩ := p
    cases hv : vlookup kvs k <;> simp [validateFields, fieldEntry, ih, hv]

theorem genFields_eq (fs : List (String × Schema)) :
    genFields fs = fs.map (fun p => (p.1, generateDefault p.2)) := by
  induction fs with
  | nil => rfl
  | cons p rest ih => obtain ⟨k, s⟩ := p; simp [genFields, ih]

theorem gdFields_matchesL (fs : List (String × Schema))
    (ih : ∀ kv ∈ fs, matchesLoose (generateDefault kv.2) kv.2 = true) :
    matchesFieldsL (genFields fs) fs = true := by
  induction fs with
  | nil => rfl
  | cons p rest ihr =>
    obtain ⟨k, s⟩ := p
    simp only [genFields, matchesFieldsL]
    have h1 := ih (k, s) (by simp)
    have h2 := ihr (fun kv hkv => ih kv (by simp [hkv]))
    simp [h1, h2]

theorem gd_matchesLoose (s : Schema) :
    matchesLoose (generateDefault s) s = true := by
  induction s using schemaInd with
  | hp t => simp [generateDefault, matchesLoose, dft_isinst]
  | hu ts => simp [generateDefault, matchesLoose]
  | hl items ih => cases items <;> simp [generateDefault, matchesLoose, matchesAllL]
  | hm fs ih => simpa [generateDefault, matchesLoose] using gdFields_matchesL fs ih

theorem matchesAllL_map (i : Schema)
    (ih : ∀ v, matchesLoose (validate i v) i = true) (xs : List Value) :
    matchesAllL (xs.map (validate i)) i = true := by
  induction xs with
  | nil => rfl
  | cons x rest ihr => simp [matchesAllL, ih, ihr]

theorem validateFields_matchesL (fs : List (String × Schema)) (kvs : List (String × Value))
    (ih : ∀ kv ∈ fs, ∀ v, matchesLoose (validate kv.2 v) kv.2 = true) :
    matchesFieldsL (validateFields fs kvs) fs = true := by
  induction fs with
  | nil => rfl
  | cons p rest ihr =>
    obtain ⟨k, s⟩ := p
    have h2 := ihr (fun kv hkv => ih kv (by simp [hkv]))
    cases hv : vlookup kvs k with
    | none =>
      simp [validateFields, hv, matchesFieldsL, gd_matchesLoose, h2]
    | some v =>
      have h1 := ih (k, s) (by simp) v
      simp [validateFields, hv, matchesFieldsL, h1, h2]

theorem validate_matchesLoose (s : Schema) (v : Value) :
    matchesLoose (validate s v) s = true := by
  induction s using schemaInd generalizing v with
  | hp t =>
    by_cases h : isinst v t = true <;> simp [validate, matchesLoose, h, dft_isinst]
  | hu ts =>
    by_cases h : isinstU v ts = true <;> simp [validate, matchesLoose_union, h]
  | hl items ih =>
    cases v with
    | vlist xs =>
      cases items with
      | nil => simp [validate, matchesLoose]
      | cons i rest =>
        have := matchesAllL_map i (fun w => ih i (by simp) w) xs
        simp [validate, matchesLoose, this]
    | vnull => cases items <;> simp [validate, matchesLoose, matchesAllL]
    | vbool b => cases items <;> simp [validate, matchesLoose, matchesAllL]
    | vint n => cases items <;> simp [validate, matchesLoose, matchesAllL]
    | vfloat r => cases items <;> simp [validate, matchesLoose, matchesAllL]
    | vstr t => cases items <;> simp [validate, matchesLoose, matchesAllL]
    | vdict kvs => cases items <;> simp [validate, matchesLoose, matchesAllL]
  | hm fs ih =>
    have := validateFields_matchesL fs
      (match v with | .vdict kvs => kvs | _ => []) (fun kv hkv w => ih kv hkv w)
    simpa [validate, matchesLoose] using this

theorem wfFields_mem {fs : List (String × Schema)} (h : wfFields fs = true)
    {kv : String × Schema} (hm : kv ∈ fs) : wfS kv.2 = true := by
  induction fs with
  | nil => cases hm
  | cons p rest ih =>
    obtain ⟨k, s⟩ := p
    simp only [wfFields, Bool.and_eq_true] at h
    rcases List.mem_cons.mp hm with rfl | hm2
    · exact h.1
    · exact ih h.2 hm2

theorem keysOf_contains_of_mem {fs : List (String × Schema)} {k : String} {s : Schema}
    (hm : (k, s) ∈ fs) : (keysOf fs).contains k = true := by
  induction fs with
  | nil => cases hm
  | cons p rest ih =>
    obtain ⟨k0, s0⟩ := p
    rcases List.mem_cons.mp hm with heq | hm2
    · cases heq
      simp [keysOf]
    · simp [keysOf, List.contains_cons]
      right
      simpa [keysOf] using ih hm2

theorem vlookup_mapped (g : String × Schema → Value) :
    ∀ (fs : List (String × Schema)) (k : String) (s : Schema),
    nodupKeys (keysOf fs) = true → (k, s) ∈ fs →
    vlookup (fs.map (fun p => (p.1, g p))) k = some (g (k, s)) := by
  intro fs
  induction fs with
  | nil => intro k s _ hm; cases hm
  | cons p rest ih =>
    intro k s hn hm
    obtain ⟨k0, s0⟩ := p
    simp only [keysOf, List.map_cons, nodupKeys, Bool.and_eq_true,
      Bool.not_eq_true'] at hn
    by_cases hk : k0 = k
    · subst hk
      rcases List.mem_cons.mp hm with heq | hm2
      · cases heq
        simp [vlookup]
      · have hc := keysOf_contains_of_mem hm2
        simp only [keysOf] at hc
        rw [hn.1] at hc
        exact Bool.noConfusion hc
    · rcases List.mem_cons.mp hm with heq | hm2
      · cases heq; exact absurd rfl hk
      · simpa [vlookup, hk] using ih k s (by simpa [keysOf] using hn.2) hm2

theorem validate_gd (s : Schema) (h : wfS s = true) :
    validate s (generateDefault s) = generateDefault s := by
  induction s using schemaInd with
  | hp t => simp [generateDefault, validate, dft_isinst]
  | hu ts => simp [generateDefault, validate_vnull_union]
  | hl items ih => cases items <;> simp [generateDefault, validate]
  | hm fs ih =>
    simp only [wfS, Bool.and_eq_true] at h
    simp only [generateDefault, validate]
    rw [validateFields_eq, genFields_eq]
    congr 1
    apply List.map_congr_left
    intro p hp
    have hlk : vlookup (List.map (fun q => (q.1, generateDefault q.2)) fs) p.1
        = some (generateDefault p.2) := by
      simpa using vlookup_mapped (fun q => generateDefault q.2) fs p.1 p.2 h.1
        (by rw [Prod.mk.eta]; exact hp)
    rw [hlk]
    simp only [fieldEntry]
    rw [ih p hp (wfFields_mem h.2 hp)]

theorem map_validate_idem (i : Schema)
    (ih : ∀ v, validate i (validate i v) = validate i v) (xs : List Value) :
    (xs.map (validate i)).map (validate i) = xs.map (validate i) := by
  induction xs with
  | nil => rfl
  | cons x rest ihr => simp [ih, ihr]

theorem validateFields_idem (fs : List (String × Schema))
    (hn : nodupKeys (keysOf fs) = true) (hw : wfFields fs = true)
    (ih : ∀ kv ∈ fs, wfS kv.2 = true → ∀ v,
      validate kv.2 (validate kv.2 v) = validate kv.2 v)
    (kvs : List (String × Value)) :
    validateFields fs (validateFields fs kvs) = validateFields fs kvs := by
  rw [validateFields_eq fs kvs, validateFields_eq fs]
  apply List.map_congr_left
  intro p hp
  have hlk : vlookup (List.map (fun q => (q.1, fieldEntry q.2 (vlookup kvs q.1))) fs) p.1
      = some (fieldEntry p.2 (vlookup kvs p.1)) := by
    simpa using vlookup_mapped (fun q => fieldEntry q.2 (vlookup kvs q.1)) fs p.1 p.2 hn
      (by rw [Prod.mk.eta]; exact hp)
  rw [hlk]
  have hwp : wfS p.2 = true := wfFields_mem hw hp
  cases hv : vlookup kvs p.1 with
  | none => simp only [fieldEntry]; rw [validate_gd p.2 hwp]
  | some w => simp only [fieldEntry]; rw [ih p hp hwp w]

theorem validate_idem (s : Schema) (h : wfS s = true) (v : Value) :
    validate s (validate s v) = validate s v := by
  revert h v
  induction s using schemaInd with
  | hp t =>
    intro _ v
    by_cases hi : isinst v t = true
    · simp [validate, hi]
    · simp [validate, hi, dft_isinst]
  | hu ts =>
    intro _ v
    by_cases hi : isinstU v ts = true
    · simp [validate, hi]
    · simp [validate, hi, validate_vnull_union]
  | hl items ih =>
    intro h v
    cases items with
    | nil => cases v <;> simp [validate]
    | cons i rest =>
      have hwi : wfS i = true := by simpa [wfS] using h
      have ihx : ∀ w, validate i (validate i w) = validate i w :=
        fun w => ih i (by simp) hwi w
      cases v with
      | vlist xs => simp [validate, map_validate_idem i ihx xs]
      | vnull => simp [validate]
      | vbool b => simp [validate]
      | vint n => simp [validate]
      | vfloat r => simp [validate]
      | vstr t => simp [validate]
      | vdict kvs => simp [validate]
  | hm fs ih =>
    intro h v
    simp only [wfS, Bool.and_eq_true] at h
    simp only [validate]
    rw [validateFields_idem fs h.1 h.2 ih]

-- ### CLAIM THEOREMS (validator)

/-- C3 counterexample: the claim that the result of validate(x, s) has a type structure
matching s is false as stated at the concrete input x = "x",
s = (int, float) (the `start_time` union of the service-entry template):
the union mismatch is healed to None, which is an instance of neither
int nor float. -/
theorem C3_union_counterexample :
    matchesSchema (validate (.union [.int, .float]) (.vstr "x"))
      (.union [.int, .float]) = false := by
  decide

/-- C3 (amended): validate is a total function (never raises) and its
result's type structure matches the schema, except that a union-schema
mismatch yields None, which matches the union only when NoneType is a
member; under union matching loosened to also accept None the structure
guarantee holds for all values and schemas: declared dict keys present
and matching, undeclared keys dropped, list elements matching the item
schema, primitives matching the declared type. -/
theorem C3_validate_structure (s : Schema) (v : Value) :
    matchesLoose (validate s v) s = true :=
  validate_matchesLoose s v

/-- C4: validate is idempotent — validate(validate(x, s), s) equals
validate(x, s) for all values x and every schema s; the hypothesis
`wfS s` only states that every dict level of s has distinct field names,
which holds for every schema expressible as a Python dict. -/
theorem C4_validate_idempotent (s : Schema) (h : wfS s = true) (v : Value) :
    validate s (validate s v) = validate s v :=
  validate_idem s h v

/-- C4 witness: idempotence applied to the service-entry schema at a
concrete ill-typed value. -/
theorem C4_validate_idempotent_witness :
    wfS serviceEntrySchema = true ∧
    validate serviceEntrySchema (validate serviceEntrySchema (.vstr "junk"))
      = validate serviceEntrySchema (.vstr "junk") :=
  ⟨by decide, C4_validate_idempotent serviceEntrySchema (by decide) (.vstr "junk")⟩

/-- C5 counterexample: for the union schema (int, float) and the
mismatched value "a", validate substitutes None — not 0, the canonical
default of the first member int, as the claim states. -/
theorem C5_union_counterexample :
    validate (.union [.int, .float]) (.vstr "a") = .vnull ∧
    Value.vnull ≠ Value.vint 0 :=
  ⟨rfl, fun h => Value.noConfusion h⟩

/-- C5 (amended): when the value matches no member of a union schema,
validate substitutes None (`default_for_type` of a tuple), not the first
member's default; a value matching any member is returned unchanged. -/
theorem C5_union_behavior (ts : List PyType) (v : Value) :
    (isinstU v ts = true → validate (.union ts) v = v) ∧
    (isinstU v ts = false → validate (.union ts) v = .vnull) := by
  constructor <;> intro h <;> simp [validate, h]

/-- C5 witness: both branches of the amended union behavior at concrete
inputs. -/
theorem C5_union_behavior_witness :
    validate (.union [.int, .float]) (.vint 3) = .vint 3 ∧
    validate (.union [.int, .float]) (.vstr "a") = .vnull :=
  ⟨(C5_union_behavior [.int, .float] (.vint 3)).1 (by decide),
   (C5_union_behavior [.int, .float] (.vstr "a")).2 (by decide)⟩

theorem healItems_fixGroupList (am : List (String × Int)) (pm : List (Int × Int)) :
    ∀ l : List GItem,
    (healItems am (fixGroupList pm l)).1 = l.filterMap (healedEntry pm am) := by
  intro l
  induction l with
  | nil => rfl
  | cons it rest ih =>
    cases h1 : lookupLast pm it.id with
    | none => simp [fixGroupList, healedEntry, h1, ih]
    | some nid =>
      cases h2 : lookupLast am it.verify with
      | none => simp [fixGroupList, healItems, healedEntry, h1, h2, ih]
      | some cid =>
        by_cases hc : cid = nid
        · subst hc
          simp [fixGroupList, healItems, healedEntry, h1, h2, ih]
        · simp [fixGroupList, healItems, healedEntry, h1, h2, ih, hc]

theorem renumberGrps_map_projectList {α : Type} (f : List GItem → α) :
    ∀ (i : Int) (gs : List Grp),
    (renumberGrps i gs).map (fun g => f g.projectList) =
      gs.map (fun g => f g.projectList) := by
  intro i gs
  induction gs generalizing i with
  | nil => rfl
  | cons g rest ih => simp [renumberGrps, ih]

theorem aliasPairs_map_group (f : Proj → Option Int) :
    ∀ ps : List Proj,
    aliasPairs (ps.map (fun p => { p with group := f p })) = aliasPairs ps := by
  intro ps
  induction ps with
  | nil => rfl
  | cons p rest ih => simp [aliasPairs, ih]

theorem aliasPairs_reindex (d : ProjectsDoc) :
    aliasPairs (reindexProjects d).projects =
      aliasPairs (renumberProjs 1 d.projects) := by
  simp only [reindexProjects]
  exact aliasPairs_map_group _ _

theorem healFix_renumber (am : List (String × Int)) (pm : List (Int × Int)) :
    ∀ (i : Int) (gs : List Grp),
    (renumberGrps i gs).map
        (fun g => (healItems am (fixGroupList pm g.projectList)).1) =
      gs.map (fun g => g.projectList.filterMap (healedEntry pm am)) := by
  intro i gs
  induction gs generalizing i with
  | nil => rfl
  | cons g rest ih =>
    simp only [renumberGrps, List.map_cons, ih]
    rw [healItems_fixGroupList]

theorem heal_characterization (d : ProjectsDoc) :
    (healProjectsPipeline d).groups.map Grp.projectList =
      d.groups.map (fun g => g.projectList.filterMap
        (healedEntry (idPairs 1 (d.projects.map (fun p => p.id)))
          (aliasPairs (renumberProjs 1 d.projects)))) := by
  unfold healProjectsPipeline healGroups
  simp only [List.map_map]
  rw [aliasPairs_reindex]
  unfold reindexProjects
  simp only [List.map_map]
  have h := healFix_renumber
    (aliasPairs (renumberProjs 1 d.projects))
    (idPairs 1 (d.projects.map (fun p => p.id))) 1 d.groups
  refine Eq.trans ?_ h
  apply List.map_congr_left
  intro g _
  rfl

-- ### CLAIM THEOREMS (group healing)

/-- C7 counterexample: in `projsDocEx` the group entry
`{"id": 7, "verify": "api"}` has a verify alias belonging to an existing
project whose current id is 2 (not 7), yet the healing performed by the
projects.json pipeline removes the entry instead of rewriting it to id 2:
PHASE 3.A of `_reindex_projects` drops any entry whose old id matches no
pre-reindex project id before `_heal_groups` can repair it by alias. -/
theorem C7_stale_id_counterexample :
    (healProjectsPipeline projsDocEx).groups.map Grp.projectList = [[]] ∧
    (healProjectsPipeline projsDocEx).projects.map (fun p => (p.aliasStr, p.id))
      = [("x", 1), ("api", 2)] :=
  ⟨rfl, rfl⟩

/-- C7 (amended): the healing on validated projects.json data keeps a
Group entry exactly when its old id equals some project's pre-reindex id
AND its verify alias names an existing project, rewriting the kept
entry's id to the id the aliased project carries after reindexing; every
entry whose verify alias matches no project is removed, and an entry
whose old id matches no pre-reindex project id is removed as well, even
when its alias still names an existing project. -/
theorem C7_group_healing (d : ProjectsDoc) :
    (healProjectsPipeline d).groups.map Grp.projectList =
      d.groups.map (fun g => g.projectList.filterMap
        (healedEntry (idPairs 1 (d.projects.map (fun p => p.id)))
          (aliasPairs (renumberProjs 1 d.projects)))) :=
  heal_characterization d

-- ### CLAIM THEOREMS (document store load)

/-- C2: the claim that Document Store loads never raise to the caller —
in particular that loading an existing well-formed document with a
registered schema returns normally — fails on the code: `_load_json`
calls `validate(raw, schema, partial=is_partial)` (storage_manager.py
line 266) but `validate(data, schema)` accepts no such keyword argument,
so every load of an existing parsable file with a registered schema
raises TypeError, and the backup-restore cascade reaches the same call
and raises as well. -/
theorem C2_load_raises_typeError :
    loadJson (.parsed projectsFileEx) .absent defaultProjectsV
        (some projectsSchemaV) = .error .typeError ∧
    loadJson .unparsable (.parsed projectsFileEx) defaultProjectsV
        (some projectsSchemaV) = .error .typeError :=
  ⟨rfl, rfl⟩

/-- C6: the claim that after any load of projects.json the ids form the
dense range 1..N with last_id = N cannot hold because `load_projects`
never completes on an existing file: the `_load_json` validate call with
the unexpected keyword argument raises TypeError before any re-indexing
runs — evaluated here on a document whose two rows both carry id 5, the
exact healing scenario of the claim. -/
theorem C6_load_projects_raises :
    loadProjects (.parsed projectsDupIdFile) .absent = .error .typeError :=
  rfl

theorem corrupt_all (n : Nat) :
    loadState n sysCorrupt = (sysCorrupt, .error .recursionError) ∧
    getServicesStatus n sysCorrupt = (sysCorrupt, .error .recursionError) ∧
    stopAll n sysCorrupt = (sysCorrupt, .error .recursionError) ∧
    nukeAll n sysCorrupt = (sysCorrupt, .error .recursionError) := by
  induction n with
  | zero => exact ⟨rfl, rfl, rfl, rfl⟩
  | succ n ih =>
    refine ⟨?_, ?_, ?_, ?_⟩
    · simp only [loadState]
      rw [show sysCorrupt.stateFile = .nonDict from rfl]
      rw [ih.2.2.2]
    · simp only [getServicesStatus]
      rw [ih.1]
    · simp only [stopAll]
      rw [ih.2.1]
    · simp only [nukeAll]
      rw [ih.2.2.1]

theorem lookup_reconcileReg (t : Int → PStat) (r : Registry) (k : String) :
    (reconcileReg t r).lookup k = (r.lookup k).map (reconcileEntry t) := by
  induction r with
  | nil => rfl
  | cons kv rest ih =>
    obtain ⟨k0, e0⟩ := kv
    by_cases hk : (k == k0) = true
    · simp [reconcileReg, List.lookup, hk]
    · simp only [reconcileReg, List.map_cons] at *
      simp [List.lookup, hk, ih]

theorem reconcileEntry_running_eq (t : Int → PStat) (x : Entry)
    (hy : (reconcileEntry t x).status = "running") : reconcileEntry t x = x := by
  by_cases h1 : x.status = "running"
  · by_cases h2 : pidTruthy x.pid = true
    · cases hp : x.pid with
      | none => rw [hp] at h2; exact absurd h2 (by decide)
      | some p =>
        have h2x : pidTruthy (some p) = true := hp ▸ h2
        by_cases h3 : t p = PStat.alive
        · simp [reconcileEntry, h1, hp, h2x, h3]
        · simp [reconcileEntry, h1, hp, h2x, h3] at hy
    · have h2x : pidTruthy x.pid = false := by simpa using h2
      simp [reconcileEntry, h1, h2x] at hy
  · by_cases h4 : x.pid = none
    · simp [reconcileEntry, h1, h4]
    · simp [reconcileEntry, h1, h4] at hy

theorem start_already_running (n : Nat) (s : Sys) (r : Registry) (pid : Int)
    (e : Entry) (hf : s.stateFile = .dictF r)
    (he : (reconcileReg s.procTable r).lookup (toString pid) = some e)
    (hrun : e.status = "running") :
    ∃ s1 : Sys,
      startProject (n + 2) s pid = (s1, .ok (false, "Already running.")) ∧
      s1.events = s.events ∧
      (∃ r1, s1.stateFile = .dictF r1 ∧ r1.lookup (toString pid) = some e) ∧
      r.lookup (toString pid) = some e := by
  have hx : r.lookup (toString pid) = some e := by
    rw [lookup_reconcileReg] at he
    cases hrx : r.lookup (toString pid) with
    | none => rw [hrx] at he; cases he
    | some x =>
      rw [hrx] at he
      simp only [Option.map_some'] at he
      injection he with he2
      have hfix : reconcileEntry s.procTable x = x :=
        reconcileEntry_running_eq _ x (by rw [he2]; exact hrun)
      rw [hfix] at he2
      rw [he2]
  have hload : loadState (n + 1) s = (s, .ok r) := by
    simp only [loadState, hf]
  have hget : getServicesStatus (n + 2) s =
      (if reconcileReg s.procTable r = r then s
       else writeState s (reconcileReg s.procTable r),
       .ok (reconcileReg s.procTable r)) := by
    simp only [getServicesStatus, hload]
  refine ⟨if reconcileReg s.procTable r = r then s
          else writeState s (reconcileReg s.procTable r), ?_, ?_, ?_, hx⟩
  · simp only [startProject, hget]
    rw [he]
    simp [hrun]
  · by_cases hd : reconcileReg s.procTable r = r <;> simp [hd, writeState]
  · by_cases hd : reconcileReg s.procTable r = r
    · refine ⟨r, ?_, hx⟩
      simp [hd, hf]
    · refine ⟨reconcileReg s.procTable r, ?_, he⟩
      simp [hd, writeState]

theorem watcher_terminates (n : Nat) (s : Sys) (r : Registry) (wpid : Int)
    (hf : s.stateFile = .dictF r)
    (hz : (watcherScan s.procTable r).2.2 = 0) :
    ∃ s1 : Sys,
      runWatcherLoop (n + 1) wpid s = (s1, .broke) ∧ s1.watcherLock = none := by
  have hload : loadState (n + 1) { s with watcherLock := some wpid } =
      ({ s with watcherLock := some wpid }, .ok r) := by
    simp only [loadState, hf]
  have key : runWatcherLoop (n + 1) wpid s =
      ({ (if (watcherScan s.procTable r).2.1
          then writeState { s with watcherLock := some wpid }
                 (watcherScan s.procTable r).1
          else { s with watcherLock := some wpid })
         with watcherLock := none }, .broke) := by
    unfold runWatcherLoop
    simp only [watcherIter, hload, hz]
    rfl
  exact ⟨_, key, rfl⟩

-- ### CLAIM THEOREMS (orchestrator)

/-- C1: the claim that structural corruption of the registry triggers
`nuke_all` and then returns {} without any exception fails on the code:
`_load_state`'s except block calls `nuke_all`, whose `stop_all`
enumerates entries by re-loading the registry through
`get_services_status`, which re-reads the still-corrupt file — the {}
reset only happens after `nuke_all` returns — and lands in the same
except block again; the recursion consumes the interpreter stack and the
resulting RecursionError propagates to the caller.  Formally: for every
stack budget, loading the "not-an-object" registry returns a
RecursionError and leaves the file corrupt, never returning {}. -/
theorem C1_corrupt_load_recurses (fuel : Nat) :
    loadState fuel sysCorrupt = (sysCorrupt, .error .recursionError) :=
  (corrupt_all fuel).1

/-- C8: for a project id whose registry entry after reconciliation is
"running", `start_project` returns the failure "Already running.",
performs no kill or spawn action, and leaves that id's registry entry
exactly as it was (the reconciliation preceding the check fixes a
running entry). -/
theorem C8_start_already_running (n : Nat) (s : Sys) (r : Registry) (pid : Int)
    (e : Entry) (hf : s.stateFile = .dictF r)
    (he : (reconcileReg s.procTable r).lookup (toString pid) = some e)
    (hrun : e.status = "running") :
    ∃ s1 : Sys,
      startProject (n + 2) s pid = (s1, .ok (false, "Already running.")) ∧
      s1.events = s.events ∧
      (∃ r1, s1.stateFile = .dictF r1 ∧ r1.lookup (toString pid) = some e) ∧
      r.lookup (toString pid) = some e :=
  start_already_running n s r pid e hf he hrun

/-- C8 witness: project 3 is running with a live pid; the second start
attempt fails as "Already running." with no events and the entry
unchanged. -/
theorem C8_start_already_running_witness :
    ∃ s1 : Sys,
      startProject 2 sysRunningEx 3 = (s1, .ok (false, "Already running.")) ∧
      s1.events = sysRunningEx.events ∧
      (∃ r1, s1.stateFile = .dictF r1 ∧
        r1.lookup (toString (3 : Int)) = some entryRunningEx) ∧
      ([("3", entryRunningEx)] : Registry).lookup (toString (3 : Int))
        = some entryRunningEx :=
  C8_start_already_running 0 sysRunningEx [("3", entryRunningEx)] 3
    entryRunningEx rfl (by decide) rfl

/-- C9: once zero registry entries reconcile to running, the watcher
loop breaks out on its very first poll iteration — so within a bounded
number of iterations for every fuel — and the `finally` clause deletes
the WatcherLock file on that graceful exit. -/
theorem C9_watcher_terminates (n : Nat) (s : Sys) (r : Registry) (wpid : Int)
    (hf : s.stateFile = .dictF r)
    (hz : (watcherScan s.procTable r).2.2 = 0) :
    ∃ s1 : Sys,
      runWatcherLoop (n + 1) wpid s = (s1, .broke) ∧ s1.watcherLock = none :=
  watcher_terminates n s r wpid hf hz

/-- C9 witness: a registry whose only entry is stopped makes the watcher
break immediately and delete its lock. -/
theorem C9_watcher_terminates_witness :
    ∃ s1 : Sys,
      runWatcherLoop 1 9 sysStoppedEx = (s1, .broke) ∧ s1.watcherLock = none :=
  C9_watcher_terminates 0 sysStoppedEx [("3", entryStoppedEx)] 9 rfl (by decide)

/-- C10: the claim that an exception from the log-file open or the spawn
is caught by `start_project` and returned as a failure message never
applies on this code: any start attempt that passes the already-running
check calls `load_projects`, which raises TypeError (the unexpected
keyword argument of C2/C6) outside the try block, so the exception
propagates uncaught and the open/spawn error handling is unreachable —
evaluated here on an environment whose log-file open would fail with
"disk full": the result is the propagated TypeError, not
`(False, "disk full")`. -/
theorem C10_start_raises_before_try :
    startProject 2 sysStartEx 1 = (sysStartEx, .error .typeError) := rfl

end CWM

